import Mathlib

/-!
Verification development for the task-management backend
(AI_Powered_Task_Management_System). The definitions below are shallow
embeddings of the Python source: service-layer task operations
(app/services/task_service.py), the heuristic and model-backed parsers
(app/agents/task_parser.py), the task-intelligence tools
(app/agents/task_intelligence_agent.py) and the bounded ReAct loop
(app/agents/database_agent.py). Machine integers are modelled as Int/Nat,
timestamps as integer seconds, Python float arithmetic as exact rationals,
fallible operations as Except.
-/

namespace App

/-! ## Basic data model (app/models/task.py, app/schemas/task.py) -/

inductive TaskStatus
  | todo
  | in_progress
  | completed
  | blocked
  | archived
deriving DecidableEq, Repr

inductive Priority
  | low
  | medium
  | high
  | urgent
deriving DecidableEq, Repr

/-- Python round-half-even of a rational to an integer (the rounding mode of
Python `round` on floats, applied here to the exact rational value). -/
def roundHalfEven (q : ℚ) : ℤ :=
  let f := ⌊q⌋
  if q - f < 1/2 then f
  else if q - f > 1/2 then f + 1
  else if f % 2 = 0 then f else f + 1

/-- Python `round(q, ndigits)` on the exact rational value. -/
def pyRound (q : ℚ) (ndigits : ℕ) : ℚ :=
  (roundHalfEven (q * 10 ^ ndigits) : ℚ) / 10 ^ ndigits

/-! ## TaskService._calculate_estimation_accuracy
(app/services/task_service.py lines 513-534) -/

/-- Embedding of `TaskService._calculate_estimation_accuracy`.
Python: `if estimated == 0: return 0.0`; otherwise
`difference = abs(estimated - actual)`,
`accuracy = max(0, 100 - (difference / estimated * 100))`,
`return round(accuracy, 2)`. -/
def calculate_estimation_accuracy (estimated actual : ℤ) : ℚ :=
  if estimated = 0 then 0
  else
    let difference : ℚ := |(estimated : ℚ) - (actual : ℚ)|
    let accuracy : ℚ := max 0 (100 - (difference / (estimated : ℚ) * 100))
    pyRound accuracy 2

/-- The estimation-accuracy formula exactly as the spec words it
(`max(0, 100 - |estimated-actual|/estimated*100)`), with no rounding.
Used to compare the spec sentence against the code embedding. -/
def spec_estimation_accuracy (estimated actual : ℤ) : ℚ :=
  max 0 (100 - |(estimated : ℚ) - (actual : ℚ)| / (estimated : ℚ) * 100)

/-! ## Task record and store (app/models/task.py; the ORM session is
modelled as a list of task rows) -/

/-- Embedding of the `Task` row (app/models/task.py). Timestamps are integer
seconds; `task_metadata` is the JSON metadata map, modelled as an
association list (the only value the core writes is the rational
`estimation_accuracy`). -/
structure Task where
  id : ℕ
  title : String
  description : Option String := Option.none
  status : TaskStatus := TaskStatus.todo
  priority : Priority := Priority.medium
  due_date : Option ℤ := Option.none
  estimated_duration : Option ℤ := Option.none
  actual_duration : Option ℤ := Option.none
  created_at : ℤ := 0
  updated_at : ℤ := 0
  completed_at : Option ℤ := Option.none
  user_id : ℕ
  parent_task_id : Option ℕ := Option.none
  task_metadata : List (String × ℚ) := []
deriving DecidableEq, Repr

/-- The persistent task store: the set of task rows visible to the session. -/
abbrev Store := List Task

/-- Embedding of `TaskRepository.get_by_id`: first row with the given id. -/
def get_by_id (store : Store) (task_id : ℕ) : Option Task :=
  store.find? (fun t => t.id = task_id)

/-- The `subtasks` relationship: rows whose `parent_task_id` is this task. -/
def subtasks_of (store : Store) (task_id : ℕ) : List Task :=
  store.filter (fun t => t.parent_task_id = some task_id)

/-- HTTP-level errors raised by the service layer. -/
inductive HttpError
  | notFound (detail : String)
  | forbidden (detail : String)
  | badRequest (detail : String)
deriving DecidableEq, Repr

/-- Embedding of `TaskService.get_task`: 404 when the id is absent,
403 when the row belongs to another user. -/
def get_task (store : Store) (task_id user_id : ℕ) : Except HttpError Task :=
  match get_by_id store task_id with
  | Option.none => Except.error (HttpError.notFound ("Task " ++ toString task_id ++ " not found"))
  | some t =>
    if t.user_id ≠ user_id then
      Except.error (HttpError.forbidden "Access denied to this task")
    else Except.ok t

/-- Embedding of `TaskService.delete_task`: after the ownership check, a task
that has subtasks can only be deleted with `cascade_subtasks=true` (else HTTP
400 is raised before any row is deleted, so the store is unchanged); with
cascade, every direct subtask is deleted and then the task itself. -/
def delete_task (store : Store) (task_id user_id : ℕ) (cascade_subtasks : Bool) :
    Except HttpError Store := do
  let task ← get_task store task_id user_id
  if subtasks_of store task.id ≠ [] ∧ ¬cascade_subtasks then
    Except.error (HttpError.badRequest "Task has subtasks. Use cascade_subtasks=true to delete all")
  else
    let store1 := if cascade_subtasks then
        store.filter (fun t => t.parent_task_id ≠ some task.id)
      else store
    Except.ok (store1.filter (fun t => t.id ≠ task.id))

/-- Embedding of `Task.mark_complete` (app/models/task.py lines 116-120). -/
def mark_complete (t : Task) (now : ℤ) : Task :=
  { t with status := TaskStatus.completed, completed_at := some now, updated_at := now }

/-- Embedding of `TaskRepository.update`: touches `updated_at` and writes the
row back; returns the new store and the stored row. -/
def repo_update (store : Store) (t : Task) (now : ℤ) : Store × Task :=
  let t1 := { t with updated_at := now }
  (store.map (fun x => if x.id = t1.id then t1 else x), t1)

/-- Python truthiness of an optional integer (`if actual_duration:`):
false for `None` and for `0`. -/
def truthyInt : Option ℤ → Bool
  | Option.none => false
  | some n => n ≠ 0

/-- Python dict assignment `m["k"] = v` on the metadata association list. -/
def meta_set (m : List (String × ℚ)) (k : String) (v : ℚ) : List (String × ℚ) :=
  if (m.lookup k).isSome then m.map (fun kv => if kv.1 = k then (k, v) else kv)
  else m ++ [(k, v)]

/-- Embedding of `TaskService.complete_task` (lines 240-272): marks the task
complete, records `actual_duration` only when it is truthy (so `0` is
skipped), and writes the `estimation_accuracy` metadata entry only when both
`estimated_duration` and the passed `actual_duration` are truthy. -/
def complete_task (store : Store) (task_id user_id : ℕ) (actual_duration : Option ℤ)
    (now : ℤ) : Except HttpError (Store × Task) := do
  let task ← get_task store task_id user_id
  let task1 := mark_complete task now
  let task2 := if truthyInt actual_duration then
      { task1 with actual_duration := actual_duration }
    else task1
  let task3 :=
    if truthyInt task2.estimated_duration ∧ truthyInt actual_duration then
      { task2 with task_metadata :=
          (meta_set task2.task_metadata "estimation_accuracy"
            (calculate_estimation_accuracy (task2.estimated_duration.getD 0)
              (actual_duration.getD 0))) }
    else task2
  Except.ok (repo_update store task3 now)

/-- Embedding of `TaskUpdate` (app/schemas/task.py) under
`model_dump(exclude_unset=True)`: an outer `Option.none` means the field was
not provided; for nullable fields the inner option is the provided value
(`tag_ids` is omitted: the service loop `setattr`s it onto the row where it
is not a column, with no effect on the fields modelled here). -/
structure TaskUpdate where
  title : Option String := Option.none
  description : Option (Option String) := Option.none
  status : Option TaskStatus := Option.none
  priority : Option Priority := Option.none
  due_date : Option (Option ℤ) := Option.none
  estimated_duration : Option (Option ℤ) := Option.none
  actual_duration : Option (Option ℤ) := Option.none
  parent_task_id : Option (Option ℕ) := Option.none
deriving DecidableEq, Repr

/-- The `setattr` loop of `TaskService.update_task`: every provided field is
written onto the row. -/
def apply_updates (t : Task) (u : TaskUpdate) : Task :=
  { t with
    title := u.title.getD t.title,
    description := u.description.getD t.description,
    status := u.status.getD t.status,
    priority := u.priority.getD t.priority,
    due_date := u.due_date.getD t.due_date,
    estimated_duration := u.estimated_duration.getD t.estimated_duration,
    actual_duration := u.actual_duration.getD t.actual_duration,
    parent_task_id := u.parent_task_id.getD t.parent_task_id }

/-- Embedding of `TaskService._handle_status_change` (lines 493-511), exactly
as written: it compares `task.status` (the status the row has when the helper
runs) with `new_status` to decide whether to set or clear `completed_at`. -/
def handle_status_change (t : Task) (new_status : TaskStatus) (now : ℤ) : Task :=
  let t1 :=
    if new_status = TaskStatus.completed ∧ t.status ≠ TaskStatus.completed then
      { t with completed_at := some now }
    else t
  if new_status ≠ TaskStatus.completed ∧ t1.status = TaskStatus.completed then
    { t1 with completed_at := Option.none }
  else t1

/-- Embedding of `TaskService.update_task` (lines 156-205): ownership check,
parent validation (only when the provided `parent_task_id` is truthy), then
the `setattr` loop, then `_handle_status_change` — which, as in the source,
runs on the row already mutated by the `setattr` loop. -/
def update_task (store : Store) (task_id : ℕ) (u : TaskUpdate) (user_id : ℕ)
    (now : ℤ) : Except HttpError (Store × Task) := do
  let task ← get_task store task_id user_id
  match u.parent_task_id with
  | some (some pid) =>
    if pid = 0 then pure ()
    else if pid = task_id then
      Except.error (HttpError.badRequest "Task cannot be its own parent")
    else
      match get_by_id store pid with
      | Option.none => Except.error (HttpError.notFound "Parent task not found")
      | some parent =>
        if parent.user_id ≠ user_id then
          Except.error (HttpError.notFound "Parent task not found")
        else pure ()
  | _ => pure ()
  let task1 := apply_updates task u
  let task2 :=
    match u.status with
    | some new_status => handle_status_change task1 new_status now
    | Option.none => task1
  Except.ok (repo_update store task2 now)

/-- Embedding of `TaskService.suggest_priority` (lines 375-408): medium with
no due date; high when due within 24 hours; medium when due within 3 days;
low for more distant deadlines. -/
def suggest_priority (now : ℤ) (task : Task) : Priority :=
  match task.due_date with
  | Option.none => Priority.medium
  | some due =>
    let time_until_due := due - now
    if time_until_due ≤ 24 * 3600 then Priority.high
    else if time_until_due ≤ 3 * 24 * 3600 then Priority.medium
    else Priority.low

/-! ## Python string primitives, modelled over the character list so that
every operation evaluates by kernel reduction -/

/-- Python `needle in haystack` on strings (substring containment). -/
def pyIn (needle haystack : String) : Bool :=
  decide (needle.toList <:+: haystack.toList)

/-- Python `s.lower()`. -/
def pyLower (s : String) : String :=
  String.mk (s.toList.map Char.toLower)

/-- Python `s.strip()` (trim ASCII whitespace from both ends). -/
def pyStrip (s : String) : String :=
  String.mk (((s.toList.dropWhile Char.isWhitespace).reverse.dropWhile
    Char.isWhitespace).reverse)

/-- Python `s.startswith(pre)`. -/
def pyStartsWith (s pre : String) : Bool :=
  pre.toList.isPrefixOf s.toList

/-- Python `s.endswith(suf)`. -/
def pyEndsWith (s suf : String) : Bool :=
  suf.toList.isSuffixOf s.toList

/-- Python slicing `s[:n]` (by characters). -/
def pyTake (s : String) (n : ℕ) : String :=
  String.mk (s.toList.take n)

/-- Python slicing `s[n:]` (by characters). -/
def pyDrop (s : String) (n : ℕ) : String :=
  String.mk (s.toList.drop n)

/-- Python slicing `s[:-n]` (by characters). -/
def pyDropRight (s : String) (n : ℕ) : String :=
  String.mk (s.toList.take (s.toList.length - n))

/-- Python `s.split(sep)` for a one-character separator (keeps empty parts). -/
def pySplitChar (s : String) (sep : Char) : List String :=
  (s.toList.splitOn sep).map String.mk

/-- Python `s.split()` with no argument: split on whitespace, dropping empty
parts. -/
def pySplitWs (s : String) : List String :=
  ((s.toList.splitOnP Char.isWhitespace).map String.mk).filter (fun w => w ≠ "")

/-- Python `s.lstrip(chars)`: drop leading characters belonging to the set. -/
def pyLStrip (s chars : String) : String :=
  String.mk (s.toList.dropWhile (fun c => chars.toList.contains c))

/-- Python `sep.join(parts)`. -/
def pyJoin (sep : String) (parts : List String) : String :=
  String.intercalate sep parts

/-! ## Task Intelligence Agent (app/agents/task_intelligence_agent.py) -/

/-- Failure of a call to the external model through the agent SDK. -/
inductive AgentError
  | modelFailure (msg : String)
deriving DecidableEq, Repr

/-- Outcome of a successful `self.agent.run(prompt)` call: the text content
the model produced. -/
structure AgentRunResult where
  content : String
deriving DecidableEq, Repr

/-- Analysis record returned by `TaskIntelligenceAgent.analyze_task`. -/
structure TaskAnalysis where
  analysis : String
  suggested_priority : Option Priority
  estimated_duration : Option ℤ
deriving DecidableEq, Repr

/-- Embedding of `TaskIntelligenceAgent.analyze_task` (lines 273-313): runs
the agent and wraps the text; there is no try/except, so a model failure
propagates to the caller, and `suggested_priority`/`estimated_duration` are
literally `None` in the source. -/
def analyze_task (agent_run : Except AgentError AgentRunResult) :
    Except AgentError TaskAnalysis :=
  match agent_run with
  | Except.error e => Except.error e
  | Except.ok result =>
    Except.ok { analysis := result.content,
                suggested_priority := Option.none,
                estimated_duration := Option.none }

/-- Embedding of `TaskIntelligenceAgent.get_productivity_insights`
(lines 315-346): runs the agent and returns its text; again no try/except,
so a model failure propagates. -/
def get_productivity_insights (agent_run : Except AgentError AgentRunResult) :
    Except AgentError String :=
  match agent_run with
  | Except.error e => Except.error e
  | Except.ok result => Except.ok result.content

/-- The subtask-line scraping loop of
`TaskIntelligenceAgent.suggest_task_breakdown` (lines 379-392): keep stripped
lines that start with a dash, a bullet or a digit, strip the list markers,
drop empties, and truncate to 7. -/
def parse_subtask_lines (content : String) : List String :=
  let lines := pySplitChar content '\n'
  (lines.foldl (fun subtasks l =>
    let line := pyStrip l
    if line ≠ "" ∧ (pyStartsWith line "-" ∨ pyStartsWith line "•" ∨
        (line.toList.headD ' ').isDigit) then
      let clean_line := pyStrip (pyLStrip line "-•0123456789. ")
      if clean_line ≠ "" then subtasks ++ [clean_line] else subtasks
    else subtasks) []).take 7

/-- Embedding of `TaskIntelligenceAgent.suggest_task_breakdown`
(lines 348-392): runs the agent and scrapes subtask lines from its text;
there is no try/except and no canned fallback, so a model failure
propagates. -/
def suggest_task_breakdown (agent_run : Except AgentError AgentRunResult) :
    Except AgentError (List String) :=
  match agent_run with
  | Except.error e => Except.error e
  | Except.ok result => Except.ok (parse_subtask_lines result.content)

/-- Insight lines produced by the `generate_productivity_insight` tool; each
constructor stands for one f-string of the source, carrying the numeric
values interpolated into it (rates as displayed, i.e. rounded to 1 decimal
place by the `:.1f` format). -/
inductive Insight
  | noTasksYet
  | excellentCompletionRate (rate : ℚ)
  | goodCompletionRate (rate : ℚ)
  | moderateCompletionRate (rate : ℚ)
  | lowCompletionRate (rate : ℚ)
  | overdueTasks (count : ℕ) (rate : ℚ)
  | highPendingBacklog
deriving DecidableEq, Repr

/-- Recommendation lines produced by the `generate_productivity_insight`
tool, one constructor per source string. -/
inductive Recommendation
  | createFirstTask
  | breakDownLargeTasks
  | focusOnCompletingExisting
  | reviewRescheduleOverdue
  | delegateOrDefer
deriving DecidableEq, Repr

/-- Return value of the `generate_productivity_insight` tool. The `total = 0`
early return carries no `completion_rate` key, hence the option. -/
structure ProductivityReport where
  insights : List Insight
  recommendations : List Recommendation
  productivity_score : ℤ
  completion_rate : Option ℚ
deriving DecidableEq, Repr

/-- Embedding of the `generate_productivity_insight` tool (lines 197-271):
completion-rate thresholds 80/60/40 give base scores 90/75/60/40; an overdue
rate above 20 percent deducts 15, a pending backlog above twice the completed
count deducts 10; the final score is clamped to [0, 100]. -/
def generate_productivity_insight (completed_tasks pending_tasks overdue_tasks : ℕ) :
    ProductivityReport :=
  let total_tasks := completed_tasks + pending_tasks + overdue_tasks
  if total_tasks = 0 then
    { insights := [Insight.noTasksYet],
      recommendations := [Recommendation.createFirstTask],
      productivity_score := 0,
      completion_rate := Option.none }
  else
    let completion_rate : ℚ := (completed_tasks : ℚ) / (total_tasks : ℚ) * 100
    let insights0 : List Insight :=
      if completion_rate ≥ 80 then [Insight.excellentCompletionRate (pyRound completion_rate 1)]
      else if completion_rate ≥ 60 then [Insight.goodCompletionRate (pyRound completion_rate 1)]
      else if completion_rate ≥ 40 then [Insight.moderateCompletionRate (pyRound completion_rate 1)]
      else [Insight.lowCompletionRate (pyRound completion_rate 1)]
    let recs0 : List Recommendation :=
      if completion_rate ≥ 80 then []
      else if completion_rate ≥ 60 then []
      else if completion_rate ≥ 40 then [Recommendation.breakDownLargeTasks]
      else [Recommendation.focusOnCompletingExisting]
    let score0 : ℤ :=
      if completion_rate ≥ 80 then 90
      else if completion_rate ≥ 60 then 75
      else if completion_rate ≥ 40 then 60
      else 40
    let overdue_rate : ℚ := (overdue_tasks : ℚ) / (total_tasks : ℚ) * 100
    let insights1 :=
      if overdue_tasks > 0 then
        insights0 ++ [Insight.overdueTasks overdue_tasks (pyRound overdue_rate 1)]
      else insights0
    let recs1 :=
      if overdue_tasks > 0 ∧ overdue_rate > 20 then
        recs0 ++ [Recommendation.reviewRescheduleOverdue]
      else recs0
    let score1 := if overdue_tasks > 0 ∧ overdue_rate > 20 then score0 - 15 else score0
    let insights2 :=
      if pending_tasks > completed_tasks * 2 then insights1 ++ [Insight.highPendingBacklog]
      else insights1
    let recs2 :=
      if pending_tasks > completed_tasks * 2 then recs1 ++ [Recommendation.delegateOrDefer]
      else recs1
    let score2 := if pending_tasks > completed_tasks * 2 then score1 - 10 else score1
    { insights := insights2,
      recommendations := recs2,
      productivity_score := max 0 (min 100 score2),
      completion_rate := some (pyRound completion_rate 1) }

/-- The completion rate the tool computes:
`completed / (completed + pending + overdue) * 100`. -/
def completion_rate_of (completed_tasks pending_tasks overdue_tasks : ℕ) : ℚ :=
  (completed_tasks : ℚ) /
    ((completed_tasks + pending_tasks + overdue_tasks : ℕ) : ℚ) * 100

/-- The overdue rate the tool computes:
`overdue / (completed + pending + overdue) * 100`. -/
def overdue_rate_of (completed_tasks pending_tasks overdue_tasks : ℕ) : ℚ :=
  (overdue_tasks : ℚ) /
    ((completed_tasks + pending_tasks + overdue_tasks : ℕ) : ℚ) * 100

/-! ## Heuristic parser (app/agents/task_parser.py, TaskParserAgent)

The Python regular-expression searches that the parser performs are the only
parts not embedded directly: their match results are passed in through a
`RegexOracle` record, and every theorem below is either universally
quantified over the oracle or instantiates it with the match result the
Python regex produces on the concrete input at hand. -/

/-- The `high_priority_keywords` list of `_determine_priority`. -/
def high_priority_keywords : List String :=
  ["urgent", "asap", "immediately", "now", "today", "deadline",
   "important", "critical", "emergency", "crucial", "priority"]

/-- The `low_priority_keywords` list of `_determine_priority`. -/
def low_priority_keywords : List String :=
  ["later", "whenever", "eventually", "maybe", "someday",
   "when convenient", "at leisure"]

/-- `sum(1 for keyword in high_priority_keywords if keyword in text_lower)`. -/
def high_count (text_lower : String) : ℕ :=
  (high_priority_keywords.filter (fun k => pyIn k text_lower)).length

/-- `sum(1 for keyword in low_priority_keywords if keyword in text_lower)`. -/
def low_count (text_lower : String) : ℕ :=
  (low_priority_keywords.filter (fun k => pyIn k text_lower)).length

/-- Embedding of `TaskParserAgent._determine_priority` (lines 241-265):
keyword-count comparison on the lowercased text, ties give "medium". -/
def determine_priority (text : String) : String :=
  let text_lower := pyLower text
  if high_count text_lower > low_count text_lower then "high"
  else if low_count text_lower > high_count text_lower then "low"
  else "medium"

/-- Embedding of `TaskParserAgent._extract_title` (lines 267-287) after the
two `re.sub` cleaning passes, which are supplied as the already-cleaned text:
first sentence, stripped, and when longer than 3 words the first
`min(5, len(words))` words joined back together. -/
def extract_title (cleaned : String) : String :=
  let sentences := pySplitChar cleaned '.'
  let main_sentence := pyStrip (sentences.headD "")
  let words := pySplitWs main_sentence
  if words.length > 3 then pyStrip (pyJoin " " (words.take (min 5 words.length)))
  else main_sentence

/-- Units of the "in N hours/days/weeks/months" pattern. -/
inductive TimeUnit
  | hour
  | day
  | week
  | month
deriving DecidableEq, Repr

/-- Midnight of the day containing timestamp `t`
(`datetime.combine(d.date(), datetime.min.time())`). -/
def date_floor (t : ℤ) : ℤ := 86400 * (t.fdiv 86400)

/-- Python `datetime.weekday()` (Monday = 0) of timestamp `t`; the epoch day
1970-01-01 was a Thursday, hence the offset 3. -/
def weekday (t : ℤ) : ℤ := (t.fdiv 86400 + 3).emod 7

/-- The weekday-name list of `_extract_due_date`. -/
def weekday_names : List String :=
  ["monday", "tuesday", "wednesday", "thursday", "friday", "saturday", "sunday"]

/-- Regex match results feeding the heuristic parser: `title_cleaned` is the
input after the two `re.sub` passes of `_extract_title`; `in_match` is the
match of the "in N hours/days/weeks/months" pattern on the lowercased input;
`duration_match` is the match of the explicit "N hour(s)/min(s)" pattern
(the boolean is true when the matched unit contains "hour"). -/
structure RegexOracle where
  title_cleaned : String
  in_match : Option (ℕ × TimeUnit)
  duration_match : Option (ℕ × Bool)
deriving DecidableEq, Repr

/-- Embedding of `TaskParserAgent._extract_due_date` (lines 189-239):
literal today/tomorrow first, then the first matching weekday name rolled
forward to its next future occurrence (7 days when it matches today), then
the "in N unit" pattern (hours keep the time of day, the rest floor to
midnight; months approximate to 30 days). -/
def extract_due_date (now : ℤ) (in_match : Option (ℕ × TimeUnit)) (text : String) :
    Option ℤ :=
  let text_lower := pyLower text
  if pyIn "today" text_lower then some (date_floor now)
  else if pyIn "tomorrow" text_lower then some (date_floor (now + 86400))
  else
    match weekday_names.findIdx? (fun day => pyIn day text_lower) with
    | some i =>
      let days_ahead0 := ((i : ℤ) - weekday now).emod 7
      let days_ahead := if days_ahead0 = 0 then 7 else days_ahead0
      some (date_floor (now + days_ahead * 86400))
    | Option.none =>
      match in_match with
      | some (num, TimeUnit.hour) => some (now + (num : ℤ) * 3600)
      | some (num, TimeUnit.day) => some (date_floor (now + (num : ℤ) * 86400))
      | some (num, TimeUnit.week) => some (date_floor (now + (num : ℤ) * 7 * 86400))
      | some (num, TimeUnit.month) => some (date_floor (now + (num : ℤ) * 30 * 86400))
      | Option.none => Option.none

/-- Embedding of `TaskParserAgent._generate_tags` (lines 289-320): five fixed
keyword categories, a "general" default, capped at 5 (the Python `set` is
modelled as a list in the check order of the source). -/
def generate_tags (text : String) : List String :=
  let text_lower := pyLower text
  let tags :=
    (if ["meeting", "email", "project", "report", "presentation", "work",
        "office"].any (fun w => pyIn w text_lower) then ["work"] else []) ++
    (if ["call", "email", "message", "contact", "phone",
        "text"].any (fun w => pyIn w text_lower) then ["communication"] else []) ++
    (if ["buy", "shop", "grocery", "store", "purchase",
        "errand"].any (fun w => pyIn w text_lower) then ["errands"] else []) ++
    (if ["doctor", "appointment", "exercise", "workout", "health",
        "medical"].any (fun w => pyIn w text_lower) then ["health"] else []) ++
    (if ["personal", "home", "family",
        "friend"].any (fun w => pyIn w text_lower) then ["personal"] else [])
  (if tags = [] then ["general"] else tags).take 5

/-- Embedding of `TaskParserAgent._estimate_duration` (lines 322-350): the
explicit "N hour(s)/min(s)" regex match wins (hours converted to minutes),
then the fixed task-type table, else `None`. -/
def estimate_duration (duration_match : Option (ℕ × Bool)) (text : String) :
    Option ℤ :=
  match duration_match with
  | some (num, is_hour) =>
    if is_hour then some ((num : ℤ) * 60) else some (num : ℤ)
  | Option.none =>
    let text_lower := pyLower text
    if ["meeting", "call", "interview"].any (fun w => pyIn w text_lower) then some 60
    else if ["email", "message", "reply"].any (fun w => pyIn w text_lower) then some 15
    else if ["report", "analysis", "research"].any (fun w => pyIn w text_lower) then some 120
    else if ["shopping", "errand"].any (fun w => pyIn w text_lower) then some 90
    else if ["exercise", "workout"].any (fun w => pyIn w text_lower) then some 60
    else Option.none

/-! ## TaskCreate and its pydantic validation (app/schemas/task.py) -/

/-- Embedding of the `TaskCreate` schema. It has no `tags` field: the
`tags=...` keyword the parser passes is an extra field that pydantic
silently ignores. -/
structure TaskCreate where
  title : String
  description : Option String := Option.none
  status : TaskStatus := TaskStatus.todo
  priority : Priority := Priority.medium
  due_date : Option ℤ := Option.none
  estimated_duration : Option ℤ := Option.none
  parent_task_id : Option ℕ := Option.none
  tag_ids : List ℕ := []
deriving DecidableEq, Repr

/-- Pydantic validation failures when constructing a `TaskCreate`. -/
inductive ValidationError
  | titleLength
  | titleMissing
  | descriptionLength
  | durationNegative
  | priorityValue
  | statusValue
  | dateFormat
  | fieldType
  | notMapping
deriving DecidableEq, Repr

/-- The coercion of a string onto the `Priority` str-enum. -/
def priority_of_string (s : String) : Option Priority :=
  if s = "low" then some Priority.low
  else if s = "medium" then some Priority.medium
  else if s = "high" then some Priority.high
  else if s = "urgent" then some Priority.urgent
  else Option.none

/-- The coercion of a string onto the `TaskStatus` str-enum. -/
def status_of_string (s : String) : Option TaskStatus :=
  if s = "todo" then some TaskStatus.todo
  else if s = "in_progress" then some TaskStatus.in_progress
  else if s = "completed" then some TaskStatus.completed
  else if s = "blocked" then some TaskStatus.blocked
  else if s = "archived" then some TaskStatus.archived
  else Option.none

/-- Description over the 2000-character pydantic bound. -/
def desc_too_long (d : Option String) : Bool :=
  match d with
  | some s => decide (s.length > 2000)
  | Option.none => false

/-- Optional duration failing the `ge=0` pydantic bound. -/
def duration_negative (d : Option ℤ) : Bool :=
  match d with
  | some n => decide (n < 0)
  | Option.none => false

/-- Pydantic validation of a `TaskCreate` built with keyword arguments, as
`_rule_based_parse` does: title length 1..255, description at most 2000
characters, the priority string coerced onto the enum, estimated duration
non-negative. -/
def validate_task_create (title : String) (description : Option String)
    (priority_str : String) (due_date : Option ℤ) (estimated_duration : Option ℤ) :
    Except ValidationError TaskCreate :=
  if title.length < 1 ∨ title.length > 255 then
    Except.error ValidationError.titleLength
  else if desc_too_long description then
    Except.error ValidationError.descriptionLength
  else
    match priority_of_string priority_str with
    | Option.none => Except.error ValidationError.priorityValue
    | some p =>
      if duration_negative estimated_duration then
        Except.error ValidationError.durationNegative
      else
        Except.ok { title := title, description := description, priority := p,
                    due_date := due_date, estimated_duration := estimated_duration }

/-- Embedding of `TaskParserAgent._rule_based_parse` (lines 164-187): builds
the structured task from the heuristic extractors and validates it as
`TaskCreate(...)` does (a pydantic failure, e.g. an empty extracted title,
propagates as an exception in the source). The `tags` the source also passes
are dropped by `TaskCreate`, which has no such field. -/
def rule_based_parse (now : ℤ) (rx : RegexOracle) (user_input : String) :
    Except ValidationError TaskCreate :=
  let due_date := extract_due_date now rx.in_match user_input
  let priority := determine_priority user_input
  let title := extract_title rx.title_cleaned
  let _tags := generate_tags user_input
  validate_task_create title (some user_input) priority due_date
    (estimate_duration rx.duration_match user_input)

/-! ## Model-backed parser (app/agents/task_parser.py,
parse_natural_language_task and _parse_gemini_response) -/

/-- Python values appearing in decoded JSON. -/
inductive PyVal
  | vstr (s : String)
  | vint (n : ℤ)
  | vlist (xs : List PyVal)
  | vdict (kvs : List (String × PyVal))
  | vnone

/-- External primitives of the model-backed path: `json.loads` (returning
`Option.none` exactly when it raises `JSONDecodeError`), and the pydantic
datetime coercion of an ISO string. Theorems quantify over this oracle or
instantiate it pointwise with what the Python functions return on the
concrete strings involved. -/
structure PyOracle where
  json_loads : String → Option PyVal
  parse_datetime : String → Option ℤ

/-- API failure of the Gemini model call. -/
inductive ApiError
  | apiFailure (msg : String)
deriving DecidableEq, Repr

/-- The code-fence cleanup of `_parse_gemini_response`: strip, drop a leading
"```json" (7 characters), drop a trailing "```". -/
def strip_code_fence (response_text : String) : String :=
  let cleaned := pyStrip response_text
  let cleaned := if pyStartsWith cleaned "```json" then pyDrop cleaned 7 else cleaned
  if pyEndsWith cleaned "```" then pyDropRight cleaned 3 else cleaned

/-- The minimal structure `_parse_gemini_response` returns when JSON decoding
fails (lines 153-162). -/
def minimal_gemini_structure (response_text : String) : PyVal :=
  PyVal.vdict
    [("title", PyVal.vstr "Parsed Task"),
     ("description", PyVal.vstr (pyTake response_text 200)),
     ("due_date", PyVal.vnone),
     ("priority", PyVal.vstr "medium"),
     ("tags", PyVal.vlist [PyVal.vstr "general"]),
     ("estimated_duration", PyVal.vnone)]

/-- Embedding of `TaskParserAgent._parse_gemini_response` (lines 137-162):
clean code fences, decode JSON, and on a decode failure return the minimal
default structure instead of raising. -/
def parse_gemini_response (ora : PyOracle) (response_text : String) : PyVal :=
  match ora.json_loads (strip_code_fence response_text) with
  | some parsed => parsed
  | Option.none => minimal_gemini_structure response_text

/-- The `title` keyword extracted from decoded JSON for `TaskCreate(**d)`:
required and it must be a string. -/
def field_title (kvs : List (String × PyVal)) : Except ValidationError String :=
  match kvs.lookup "title" with
  | some (PyVal.vstr s) => Except.ok s
  | some _ => Except.error ValidationError.fieldType
  | Option.none => Except.error ValidationError.titleMissing

/-- The optional `description` keyword: absent or JSON null give `None`. -/
def field_description (kvs : List (String × PyVal)) :
    Except ValidationError (Option String) :=
  match kvs.lookup "description" with
  | Option.none => Except.ok Option.none
  | some PyVal.vnone => Except.ok Option.none
  | some (PyVal.vstr d) => Except.ok (some d)
  | some _ => Except.error ValidationError.fieldType

/-- The optional `status` keyword, coerced onto the enum, defaulting to
todo. -/
def field_status (kvs : List (String × PyVal)) : Except ValidationError TaskStatus :=
  match kvs.lookup "status" with
  | Option.none => Except.ok TaskStatus.todo
  | some (PyVal.vstr s) =>
    match status_of_string s with
    | some st => Except.ok st
    | Option.none => Except.error ValidationError.statusValue
  | some _ => Except.error ValidationError.fieldType

/-- The optional `priority` keyword, coerced onto the enum, defaulting to
medium. -/
def field_priority (kvs : List (String × PyVal)) : Except ValidationError Priority :=
  match kvs.lookup "priority" with
  | Option.none => Except.ok Priority.medium
  | some (PyVal.vstr s) =>
    match priority_of_string s with
    | some p => Except.ok p
    | Option.none => Except.error ValidationError.priorityValue
  | some _ => Except.error ValidationError.fieldType

/-- The optional `due_date` keyword: absent or null give `None`; a string is
run through the pydantic datetime coercion. -/
def field_due_date (ora : PyOracle) (kvs : List (String × PyVal)) :
    Except ValidationError (Option ℤ) :=
  match kvs.lookup "due_date" with
  | Option.none => Except.ok Option.none
  | some PyVal.vnone => Except.ok Option.none
  | some (PyVal.vstr s) =>
    match ora.parse_datetime s with
    | some t => Except.ok (some t)
    | Option.none => Except.error ValidationError.dateFormat
  | some _ => Except.error ValidationError.fieldType

/-- The optional `estimated_duration` keyword: an integer with `ge=0`. -/
def field_duration (kvs : List (String × PyVal)) :
    Except ValidationError (Option ℤ) :=
  match kvs.lookup "estimated_duration" with
  | Option.none => Except.ok Option.none
  | some PyVal.vnone => Except.ok Option.none
  | some (PyVal.vint n) =>
    if n < 0 then Except.error ValidationError.durationNegative
    else Except.ok (some n)
  | some _ => Except.error ValidationError.fieldType

/-- `TaskCreate(**parsed_data)` on a decoded JSON value: keyword unpacking
requires a mapping, then pydantic validates each known field (extra keys
such as `tags` are ignored). -/
def task_create_of_pyval (ora : PyOracle) (v : PyVal) :
    Except ValidationError TaskCreate :=
  match v with
  | PyVal.vdict kvs => do
    let title ← field_title kvs
    if title.length < 1 ∨ title.length > 255 then
      Except.error ValidationError.titleLength
    else do
      let description ← field_description kvs
      if desc_too_long description then
        Except.error ValidationError.descriptionLength
      else do
        let status ← field_status kvs
        let priority ← field_priority kvs
        let due_date ← field_due_date ora kvs
        let estimated_duration ← field_duration kvs
        Except.ok { title := title, description := description, status := status,
                    priority := priority, due_date := due_date,
                    estimated_duration := estimated_duration }
  | _ => Except.error ValidationError.notMapping

/-- Embedding of `TaskParserAgent.parse_natural_language_task` (lines 37-73):
the model call and the `TaskCreate(**parsed)` construction sit inside one
try/except whose handler returns `_rule_based_parse(user_input)`; note that a
bare JSON-decode failure never reaches the handler because
`_parse_gemini_response` absorbs it into the minimal structure. -/
def parse_natural_language_task (ora : PyOracle) (now : ℤ) (rx : RegexOracle)
    (gen_response : Except ApiError String) (user_input : String) :
    Except ValidationError TaskCreate :=
  match gen_response with
  | Except.error _ => rule_based_parse now rx user_input
  | Except.ok response_text =>
    match task_create_of_pyval ora (parse_gemini_response ora response_text) with
    | Except.ok tc => Except.ok tc
    | Except.error _ => rule_based_parse now rx user_input

/-- The behaviour C7 claims of the heuristic parser, as a predicate:
parsing succeeds, the title is the extracted title, and the priority obeys
the keyword-count trichotomy. -/
def RuleParseSpec (now : ℤ) (rx : RegexOracle) (input : String) : Prop :=
  ∃ tc, rule_based_parse now rx input = Except.ok tc ∧
    tc.title = extract_title rx.title_cleaned ∧
    (tc.priority = Priority.low ∨ tc.priority = Priority.medium ∨
      tc.priority = Priority.high) ∧
    (tc.priority = Priority.high ↔
      high_count (pyLower input) > low_count (pyLower input)) ∧
    (tc.priority = Priority.low ↔
      low_count (pyLower input) > high_count (pyLower input)) ∧
    (tc.priority = Priority.medium ↔
      high_count (pyLower input) = low_count (pyLower input))

/-- The structured task `_rule_based_parse` yields when validation passes,
parameterised by the priority the keyword counts produce. -/
def rule_parse_result (now : ℤ) (rx : RegexOracle) (input : String) (p : Priority) :
    TaskCreate :=
  { title := extract_title rx.title_cleaned, description := some input,
    priority := p, due_date := extract_due_date now rx.in_match input,
    estimated_duration := estimate_duration rx.duration_match input }

/-- The regex-oracle instance for the literal input "Call John": neither
`re.sub` pass of `_extract_title` matches, and neither duration nor
"in N unit" pattern matches. -/
def cjRx : RegexOracle := ⟨"Call John", Option.none, Option.none⟩

/-- The regex-oracle instance for the literal input "today": the second
`re.sub` pass of `_extract_title` removes the word, leaving the empty
string; no other pattern matches. -/
def todayRx : RegexOracle := ⟨"", Option.none, Option.none⟩

/-- A JSON oracle for the concrete counterexample: `json.loads` fails on the
non-JSON strings involved (as the real decoder does on "not json"), and no
datetime parsing occurs. -/
def cexPyOracle : PyOracle := ⟨fun _ => Option.none, fun _ => Option.none⟩

/-! ## Tool-calling ReAct loop (app/agents/database_agent.py, DatabaseAgent)

The Gemini transcript is a list of role-tagged messages. A model response is
its raw text together with the result of the action-block scrape (the
regex search for a fenced json block followed by `json.loads`), which the
response carries as structured data; the content of the system prompt and
of tool observations only flows back into the next model call, so both are
supplied as functions of the agent record. -/

/-- Gemini chat roles. -/
inductive Role
  | user
  | model
deriving DecidableEq, Repr

/-- One transcript entry (`{"role": ..., "parts": [...]}`). -/
structure ChatMessage where
  role : Role
  parts : String
deriving DecidableEq, Repr

/-- A persisted conversation message as passed into `run` (role is the
stored string, compared against "user"). -/
structure HistoryMessage where
  role : String
  content : String
deriving DecidableEq, Repr

/-- The `args` value of a decoded action block: a JSON object (modelled as
its string-valued entries, the only kind the loop reads), or a non-object on
which the `.get` attribute access raises (the carried string is the
exception text). -/
inductive ToolArgs
  | adict (kvs : List (String × String))
  | nondict (err : String)
deriving DecidableEq, Repr

/-- Result of scraping one model response for a fenced json action block:
no regex match, a match whose `json.loads` (or subsequent attribute access)
raises, or a decoded block with its optional "tool" entry and its args. -/
inductive ActionBlock
  | noBlock
  | malformed (err : String)
  | action (tool : Option String) (args : ToolArgs)
deriving DecidableEq, Repr

/-- One successful model response: the raw text plus its scraped block. -/
structure GenResponse where
  text : String
  block : ActionBlock
deriving DecidableEq, Repr

/-- The three exception classes caught around `generate_content_async`. -/
inductive ModelError
  | resourceExhausted
  | googleApi (msg : String)
  | unexpected (msg : String)
deriving DecidableEq, Repr

/-- The fixed message returned when the turn budget is exhausted. -/
def stepLimitMessage : String := "I tried to help but reached my limit of steps."

/-- The user-facing replies of the three exception handlers. -/
def errorReply : ModelError → String
  | ModelError.resourceExhausted =>
    "I'm currently hitting my rate limit with the AI provider. Please wait a minute and try again."
  | ModelError.googleApi msg =>
    "I encountered an error communicating with the AI service: " ++ msg
  | ModelError.unexpected msg =>
    "An unexpected error occurred: " ++ msg

/-- The agent with its external capabilities: `gen` is one
`generate_content_async` call on the running transcript; `execTool` is
`_execute_tool` (its result is an observation string, including the
"Tool ... not found." and "Error: ..." cases); `buildSystemPrompt` is
`_build_system_prompt`. -/
structure DatabaseAgent where
  gen : List ChatMessage → Except ModelError GenResponse
  execTool : Option String → ToolArgs → String
  buildSystemPrompt : String → String

/-- The `max_turns = 5` turn budget. -/
def maxTurns : ℕ := 5

/-- The initial transcript of `run`: history mapped onto Gemini roles,
followed by the system prompt wrapping the user input. -/
def initMessages (agent : DatabaseAgent) (user_input : String)
    (history : List HistoryMessage) : List ChatMessage :=
  (history.map (fun m =>
    ⟨if m.role = "user" then Role.user else Role.model, m.content⟩)) ++
  [⟨Role.user, agent.buildSystemPrompt user_input⟩]

/-- The while-loop of `DatabaseAgent.run`, with the remaining turn budget as
fuel; returns the reply together with the number of model calls made. Each
iteration: call the model (an exception returns the handler reply); with no
action block return the raw text; a `final_answer` block returns its
"message" argument (default: the raw text), unless reading the args raises,
which, like a malformed block or any other tool, appends an observation and
continues. -/
def runAux (agent : DatabaseAgent) : List ChatMessage → ℕ → String × ℕ
  | _, 0 => (stepLimitMessage, 0)
  | messages, fuel + 1 =>
    match agent.gen messages with
    | Except.error e => (errorReply e, 1)
    | Except.ok res =>
      match res.block with
      | ActionBlock.noBlock => (res.text, 1)
      | ActionBlock.malformed err =>
        let next := messages ++
          [⟨Role.model, res.text⟩,
           ⟨Role.user, "Observation: Error executing tool: " ++ err⟩]
        let r := runAux agent next fuel
        (r.1, r.2 + 1)
      | ActionBlock.action tool args =>
        if tool = some "final_answer" then
          match args with
          | ToolArgs.adict kvs => ((kvs.lookup "message").getD res.text, 1)
          | ToolArgs.nondict err =>
            let next := messages ++
              [⟨Role.model, res.text⟩,
               ⟨Role.user, "Observation: Error executing tool: " ++ err⟩]
            let r := runAux agent next fuel
            (r.1, r.2 + 1)
        else
          let observation := agent.execTool tool args
          let next := messages ++
            [⟨Role.model, res.text⟩,
             ⟨Role.user, "Observation: " ++ observation⟩]
          let r := runAux agent next fuel
          (r.1, r.2 + 1)

/-- Embedding of `DatabaseAgent.run` (lines 37-99). -/
def DatabaseAgent.run (agent : DatabaseAgent) (user_input : String)
    (history : List HistoryMessage) : String :=
  (runAux agent (initMessages agent user_input history) maxTurns).1

/-- A trivial agent whose model always answers "hello" with no action block,
used to witness the loop theorem. -/
def helloAgent : DatabaseAgent :=
  ⟨fun _ => Except.ok ⟨"hello", ActionBlock.noBlock⟩, fun _ _ => "", id⟩

deriving instance DecidableEq for Except

/-! ## Concrete sample rows used by concrete evaluations -/

/-- A task due in 5 days (seconds), relative to `now = 0`. -/
def dueInFiveDays : Task :=
  { id := 1, title := "t", user_id := 1, due_date := some (5 * 86400) }

/-- A parent task owned by user 7. -/
def parentRow : Task := { id := 1, title := "parent", user_id := 7 }

/-- A direct subtask of `parentRow`, same owner. -/
def childRow : Task :=
  { id := 2, title := "child", user_id := 7, parent_task_id := some 1 }

/-- A todo task with no completion timestamp. -/
def todoRow : Task := { id := 1, title := "Write report", user_id := 1 }

/-- A completed task whose completion timestamp is set. -/
def doneRow : Task :=
  { id := 1, title := "Write report", user_id := 1, status := TaskStatus.completed, completed_at := some 3 }

/-- A task with an estimated duration and no actual duration. -/
def estRow : Task :=
  { id := 4, title := "Estimate me", user_id := 9, estimated_duration := some 30 }

theorem pyRound_100 : pyRound 100 2 = 100 := by
  norm_num [pyRound, roundHalfEven]

/-- C2 counterexample: at estimated = 3, actual = 1 the stored accuracy is
round(100/3, 2) = 33.33, which differs from the claimed exact value
max(0, 100 - |3-1|/3*100) = 100/3. -/
theorem C2_accuracy_rounding_counterexample :
    calculate_estimation_accuracy 3 1 = 3333 / 100 ∧
    calculate_estimation_accuracy 3 1 ≠ spec_estimation_accuracy 3 1 := by
  constructor
  · norm_num [calculate_estimation_accuracy, pyRound, roundHalfEven]
  · norm_num [calculate_estimation_accuracy, spec_estimation_accuracy, pyRound, roundHalfEven]

/-- C2 (amended): for all non-negative integers, the stored estimation
accuracy equals the spec formula rounded half-even to 2 decimal places; it
equals 100 whenever estimated = actual and estimated is nonzero, and it is
defined as 0 (not a division error) when estimated = 0. -/
theorem C2_estimation_accuracy (estimated actual : ℤ)
    (_hest : 0 ≤ estimated) (_hact : 0 ≤ actual) :
    calculate_estimation_accuracy estimated actual =
      (if estimated = 0 then 0 else pyRound (spec_estimation_accuracy estimated actual) 2) ∧
    (estimated ≠ 0 → estimated = actual →
      calculate_estimation_accuracy estimated actual = 100) ∧
    calculate_estimation_accuracy 0 actual = 0 := by
  refine ⟨?_, ?_, ?_⟩
  · by_cases h : estimated = 0
    · simp [calculate_estimation_accuracy, h]
    · simp [calculate_estimation_accuracy, spec_estimation_accuracy, h]
  · intro h0 heq
    subst heq
    simp [calculate_estimation_accuracy, h0, pyRound_100]
  · simp [calculate_estimation_accuracy]

/-- C2 witness: the amended theorem applied at estimated = 30, actual = 30. -/
theorem C2_estimation_accuracy_witness :
    calculate_estimation_accuracy 30 30 = 100 :=
  (C2_estimation_accuracy 30 30 (by norm_num) (by norm_num)).2.1 (by norm_num) rfl

/-- C4 counterexample: on the statistics of the claimed example (8 completed,
2 pending, 0 overdue — completion rate 80 percent) the deterministic
`generate_productivity_insight` tool returns productivity score 90 with an
"Excellent completion rate" insight, not the claimed score 80 with a "good"
insight. -/
theorem C4_productivity_score_counterexample :
    (generate_productivity_insight 8 2 0).productivity_score = 90 ∧
    (generate_productivity_insight 8 2 0).productivity_score ≠ 80 ∧
    (generate_productivity_insight 8 2 0).insights =
      [Insight.excellentCompletionRate 80] := by
  refine ⟨?_, ?_, ?_⟩ <;>
    norm_num [generate_productivity_insight, pyRound, roundHalfEven]

/-- C4 (amended): for every non-empty statistics triple, the deterministic
`generate_productivity_insight` tool yields a productivity score equal to
the completion-rate base (rate ≥ 80 percent gives 90, 60-79 gives 75, 40-59
gives 60, below 40 gives 40) minus a deduction of 15 exactly when there are
overdue tasks with an overdue rate above 20 percent and minus 10 exactly
when pending exceeds twice completed, clamped to [0, 100]; its insight list
is the bracket-matching completion-rate line
(Excellent/Good/Moderate/Low, carrying the rate rounded to 1 decimal),
followed by the overdue line when overdue tasks exist and the backlog line
when pending exceeds twice completed; and the outer
`get_productivity_insights` has no fallback — a model failure propagates. -/
theorem C4_productivity_score_thresholds (c p o : ℕ) (h : 0 < c + p + o)
    (e : AgentError) :
    (generate_productivity_insight c p o).productivity_score =
      max 0 (min 100
        ((if 80 ≤ completion_rate_of c p o then 90
          else if 60 ≤ completion_rate_of c p o then 75
          else if 40 ≤ completion_rate_of c p o then 60
          else 40)
         - (if 0 < o ∧ 20 < overdue_rate_of c p o then 15 else 0)
         - (if c * 2 < p then 10 else 0))) ∧
    (generate_productivity_insight c p o).insights =
      [if 80 ≤ completion_rate_of c p o then
         Insight.excellentCompletionRate (pyRound (completion_rate_of c p o) 1)
       else if 60 ≤ completion_rate_of c p o then
         Insight.goodCompletionRate (pyRound (completion_rate_of c p o) 1)
       else if 40 ≤ completion_rate_of c p o then
         Insight.moderateCompletionRate (pyRound (completion_rate_of c p o) 1)
       else Insight.lowCompletionRate (pyRound (completion_rate_of c p o) 1)] ++
      (if 0 < o then [Insight.overdueTasks o (pyRound (overdue_rate_of c p o) 1)] else []) ++
      (if c * 2 < p then [Insight.highPendingBacklog] else []) ∧
    (generate_productivity_insight c p o).completion_rate =
      some (pyRound (completion_rate_of c p o) 1) ∧
    get_productivity_insights (Except.error e) = Except.error e := by
  have h1 : ¬(c + p + o = 0) := by omega
  refine ⟨?_, ?_, ?_, rfl⟩
  · unfold generate_productivity_insight
    rw [if_neg h1]
    simp only [completion_rate_of, overdue_rate_of, gt_iff_lt, ge_iff_le]
    split_ifs <;> norm_num
  · unfold generate_productivity_insight
    rw [if_neg h1]
    simp only [completion_rate_of, overdue_rate_of, gt_iff_lt, ge_iff_le]
    split_ifs <;> rfl
  · unfold generate_productivity_insight
    rw [if_neg h1]
    simp only [completion_rate_of]

/-- C4 witness: the amended theorem applied at 8 completed, 2 pending,
0 overdue. -/
theorem C4_productivity_score_thresholds_witness :
    (generate_productivity_insight 8 2 0).completion_rate =
      some (pyRound (completion_rate_of 8 2 0) 1) :=
  (C4_productivity_score_thresholds 8 2 0 (by norm_num)
    (AgentError.modelFailure "quota")).2.2.1

/-- C5 counterexample: a model reply with no bullet, dash or digit lines
yields an empty subtask list (violating the claimed lower bound of 1), and a
model failure propagates as an error instead of producing the claimed canned
3-entry Plan/Execute/Review fallback. -/
theorem C5_breakdown_counterexample :
    suggest_task_breakdown (Except.ok ⟨"I cannot break this task into subtasks."⟩) =
      Except.ok ([] : List String) ∧
    suggest_task_breakdown (Except.error (AgentError.modelFailure "quota")) =
      Except.error (AgentError.modelFailure "quota") := by
  refine ⟨?_, rfl⟩
  show Except.ok (parse_subtask_lines "I cannot break this task into subtasks.") = _
  rw [show parse_subtask_lines "I cannot break this task into subtasks." =
    ([] : List String) from by decide]

theorem foldl_fixed {α β : Type} (f : List α → β → List α) :
    ∀ (lines : List β), (∀ acc l, l ∈ lines → f acc l = acc) →
      ∀ acc, lines.foldl f acc = acc := by
  intro lines
  induction lines with
  | nil => intro _ acc; rfl
  | cons hd tl ih =>
    intro hf acc
    rw [List.foldl_cons, hf acc hd (List.mem_cons_self _ _)]
    exact ih (fun acc l hl => hf acc l (List.mem_cons_of_mem _ hl)) acc

/-- C5 (amended): for every model reply the scraped subtask list has at most
7 entries, with a lower bound of 0, not 1: a reply none of whose stripped
lines is nonempty and dash-, bullet- or digit-led yields the empty list.
There is no canned fallback — model failures propagate unchanged. -/
theorem C5_breakdown_bounds (content : String) (e : AgentError) :
    suggest_task_breakdown (Except.ok ⟨content⟩) =
      Except.ok (parse_subtask_lines content) ∧
    (parse_subtask_lines content).length ≤ 7 ∧
    ((∀ l ∈ pySplitChar content '\n',
        ¬(pyStrip l ≠ "" ∧ (pyStartsWith (pyStrip l) "-" ∨
          pyStartsWith (pyStrip l) "•" ∨
          ((pyStrip l).toList.headD ' ').isDigit))) →
      parse_subtask_lines content = []) ∧
    suggest_task_breakdown (Except.error e) = Except.error e := by
  refine ⟨rfl, ?_, ?_, rfl⟩
  · simp only [parse_subtask_lines]
    exact (List.length_take_le _ _)
  · intro hnone
    have hz := foldl_fixed
      (fun subtasks l =>
        let line := pyStrip l
        if line ≠ "" ∧ (pyStartsWith line "-" ∨ pyStartsWith line "•" ∨
            (line.toList.headD ' ').isDigit) then
          let clean_line := pyStrip (pyLStrip line "-•0123456789. ")
          if clean_line ≠ "" then subtasks ++ [clean_line] else subtasks
        else subtasks)
      (pySplitChar content '\n')
      (fun acc l hl => if_neg (hnone l hl))
      []
    simp only [parse_subtask_lines, hz, List.take_nil]

/-- C6 counterexample: a task due in 5 days (beyond 3 but within 7) gets
suggested priority low from the deterministic rule, where the claim requires
medium (low only beyond 7 days). -/
theorem C6_suggest_priority_counterexample :
    suggest_priority 0 dueInFiveDays = Priority.low ∧
    suggest_priority 0 dueInFiveDays ≠ Priority.medium := by
  exact ⟨by decide, by decide⟩

/-- C6 (amended): the deterministic rule `TaskService.suggest_priority`
returns high when the task is due within 24 hours, medium when due within 3
days (or with no due date), and low beyond 3 days; and
`TaskIntelligenceAgent.analyze_task` has no rule-based fallback — a model
failure propagates to the caller. -/
theorem C6_suggest_priority_rule (now : ℤ) (t : Task) (e : AgentError) :
    (t.due_date = Option.none → suggest_priority now t = Priority.medium) ∧
    (∀ due, t.due_date = some due → due - now ≤ 24 * 3600 →
      suggest_priority now t = Priority.high) ∧
    (∀ due, t.due_date = some due → 24 * 3600 < due - now →
      due - now ≤ 3 * 24 * 3600 → suggest_priority now t = Priority.medium) ∧
    (∀ due, t.due_date = some due → 3 * 24 * 3600 < due - now →
      suggest_priority now t = Priority.low) ∧
    analyze_task (Except.error e) = Except.error e := by
  refine ⟨?_, ?_, ?_, ?_, rfl⟩
  · intro h; simp [suggest_priority, h]
  · intro due h hle
    simp only [suggest_priority, h]
    split_ifs <;> first | rfl | omega
  · intro due h hgt hle
    simp only [suggest_priority, h]
    split_ifs <;> first | rfl | omega
  · intro due h hgt
    simp only [suggest_priority, h]
    split_ifs <;> first | rfl | omega

/-- C6 witness: the amended rule applied to a task due in 5 days. -/
theorem C6_suggest_priority_rule_witness :
    suggest_priority 0 dueInFiveDays = Priority.low :=
  (C6_suggest_priority_rule 0 dueInFiveDays (AgentError.modelFailure "quota")).2.2.2.1
    (5 * 86400) rfl (by norm_num)

/-- C8: for a task owned by the requesting user that has a subtask, deleting
without cascade fails with the HTTP 400 client error (raised before any row
is deleted, so the store is unchanged), and deleting with cascade returns a
store holding exactly the previous rows minus the task and its direct
subtasks. -/
theorem C8_delete_task_cascade (store : Store) (task_id user_id : ℕ) (t s : Task)
    (ht : get_by_id store task_id = some t) (howner : t.user_id = user_id)
    (hs : s ∈ subtasks_of store task_id) :
    delete_task store task_id user_id false =
      Except.error (HttpError.badRequest
        "Task has subtasks. Use cascade_subtasks=true to delete all") ∧
    (∃ store2, delete_task store task_id user_id true = Except.ok store2 ∧
      ∀ x, x ∈ store2 ↔
        (x ∈ store ∧ x.id ≠ task_id ∧ x.parent_task_id ≠ some task_id)) := by
  have hid : t.id = task_id := by
    have := List.find?_some ht
    simpa using this
  have hget : get_task store task_id user_id = Except.ok t := by
    simp [get_task, ht, howner]
  have hsub : subtasks_of store task_id ≠ [] := List.ne_nil_of_mem hs
  constructor
  · simp only [delete_task, hget, bind, Except.bind, hid]
    rw [if_pos ⟨hsub, by simp⟩]
  · refine ⟨(store.filter (fun x => x.parent_task_id ≠ some t.id)).filter
      (fun x => x.id ≠ t.id), ?_, ?_⟩
    · simp only [delete_task, hget, bind, Except.bind, hid]
      rw [if_neg (by simp)]
      simp
    · intro x
      simp [List.mem_filter, hid, and_assoc, and_comm]

/-- C8 witness: the theorem applied to a concrete two-row store (task 1 with
subtask 2, both owned by user 7). -/
theorem C8_delete_task_cascade_witness :
    delete_task [parentRow, childRow] 1 7 false =
      Except.error (HttpError.badRequest
        "Task has subtasks. Use cascade_subtasks=true to delete all") :=
  (C8_delete_task_cascade [parentRow, childRow] 1 7 parentRow childRow
    (by decide) rfl (by decide)).1

/-- C9: evaluation of the embedded `update_task` at the failing input. A todo
task updated to status completed comes back with `completed_at = None`, and a
completed task updated to status todo keeps its old `completed_at` — the
`_handle_status_change` helper runs after the `setattr` loop has already
overwritten `task.status`, so both of its transition conditions are
unsatisfiable and the claimed invariant (completed_at set iff status is
completed) is violated by the update operation. -/
theorem C9_update_task_completed_at_bug :
    (∃ p, update_task [todoRow] 1 { status := some TaskStatus.completed } 1 5 =
        Except.ok p ∧
      p.2.status = TaskStatus.completed ∧ p.2.completed_at = Option.none) ∧
    (∃ q, update_task [doneRow] 1 { status := some TaskStatus.todo } 1 5 =
        Except.ok q ∧
      q.2.status = TaskStatus.todo ∧ q.2.completed_at = some 3) := by
  constructor
  · exact ⟨_, rfl, rfl, rfl⟩
  · exact ⟨_, rfl, rfl, rfl⟩

/-- C10: completing a task with `actual_duration = 0` (falsy in Python) still
marks it completed, but leaves `actual_duration` unset, writes no
`estimation_accuracy` metadata entry even when an `estimated_duration`
exists, and changes no other field in the duration-recording step (only
status, completed_at and updated_at change, via `mark_complete` and the
repository update). -/
theorem C10_complete_task_zero_duration (store : Store) (task_id user_id : ℕ)
    (t : Task) (now : ℤ)
    (ht : get_by_id store task_id = some t) (howner : t.user_id = user_id)
    (hdur : t.actual_duration = Option.none) :
    ∃ p, complete_task store task_id user_id (some 0) now = Except.ok p ∧
      p.2 = { t with status := TaskStatus.completed,
                     completed_at := some now, updated_at := now } ∧
      p.2.actual_duration = Option.none ∧
      p.2.task_metadata = t.task_metadata := by
  have hget : get_task store task_id user_id = Except.ok t := by
    simp [get_task, ht, howner]
  refine ⟨(store.map (fun x => if x.id = t.id then mark_complete t now else x),
      mark_complete t now), ?_, rfl, hdur, rfl⟩
  have h0 : truthyInt (some 0) = false := rfl
  simp only [complete_task, hget, bind, Except.bind, h0, Bool.false_eq_true,
    if_false, and_false]
  rfl

/-- C10 witness: the theorem applied to a concrete store with an estimated
duration present. -/
theorem C10_complete_task_zero_duration_witness :
    ∃ p, complete_task [estRow] 4 9 (some 0) 77 = Except.ok p ∧
      p.2 = { estRow with status := TaskStatus.completed,
                          completed_at := some 77, updated_at := 77 } ∧
      p.2.actual_duration = Option.none ∧
      p.2.task_metadata = estRow.task_metadata :=
  C10_complete_task_zero_duration [estRow] 4 9 estRow 77 (by decide) rfl rfl

theorem duration_negative_estimate (m : Option (ℕ × Bool)) (text : String) :
    duration_negative (estimate_duration m text) = false := by
  rcases m with _ | ⟨n, b⟩
  · simp only [estimate_duration, duration_negative]
    split_ifs <;> simp
  · cases b <;>
      simp only [estimate_duration, duration_negative, if_true, if_false,
        Bool.false_eq_true, decide_eq_false_iff_not, not_lt] <;>
      positivity

theorem validate_ok (title desc pstr : String) (p : Priority) (due : Option ℤ)
    (dur : Option ℤ) (h1 : 1 ≤ title.length) (h2 : title.length ≤ 255)
    (h3 : desc.length ≤ 2000) (hp : priority_of_string pstr = some p)
    (hd : duration_negative dur = false) :
    validate_task_create title (some desc) pstr due dur =
      Except.ok { title := title, description := some desc, priority := p,
                  due_date := due, estimated_duration := dur } := by
  have hdesc : desc_too_long (some desc) = false := by
    simp only [desc_too_long, decide_eq_false_iff_not, not_lt]
    omega
  simp only [validate_task_create, hdesc, hp, hd, Bool.false_eq_true, if_false]
  rw [if_neg (by omega)]

theorem determine_priority_high (text : String)
    (h : high_count (pyLower text) > low_count (pyLower text)) :
    determine_priority text = "high" := by
  simp only [determine_priority]
  rw [if_pos h]

theorem determine_priority_low (text : String)
    (h : low_count (pyLower text) > high_count (pyLower text)) :
    determine_priority text = "low" := by
  simp only [determine_priority]
  rw [if_neg (by omega), if_pos h]

theorem determine_priority_medium (text : String)
    (h : high_count (pyLower text) = low_count (pyLower text)) :
    determine_priority text = "medium" := by
  simp only [determine_priority]
  rw [if_neg (by omega), if_neg (by omega)]

/-- C7 counterexample: on the free-text input "today" the regex cleaning of
`_extract_title` removes the word, the extracted title is empty, and the
`TaskCreate` construction inside `_rule_based_parse` raises a validation
error — the heuristic parser does not return a result on every input. -/
theorem C7_rule_based_parse_counterexample :
    rule_based_parse 0 todayRx "today" =
      Except.error ValidationError.titleLength := by decide

/-- C7 (amended): whenever the title extracted from the regex-cleaned text
has between 1 and 255 characters and the input has at most 2000 characters
(the pydantic bound on the description, which is the raw input), the
heuristic parser returns a structured result whose title is the extracted
title and whose priority is low, medium or high, and the priority is high
exactly when the urgency-keyword count of the lowercased text exceeds the
deferral-keyword count, low exactly when the deferral count exceeds the
urgency count, and medium exactly on a tie. -/
theorem C7_rule_based_parse_total (now : ℤ) (rx : RegexOracle) (input : String)
    (h1 : 1 ≤ (extract_title rx.title_cleaned).length)
    (h2 : (extract_title rx.title_cleaned).length ≤ 255)
    (h3 : input.length ≤ 2000) :
    RuleParseSpec now rx input := by
  have hdur := duration_negative_estimate rx.duration_match input
  rcases Nat.lt_trichotomy (high_count (pyLower input)) (low_count (pyLower input))
    with hlt | heq | hgt
  · refine ⟨rule_parse_result now rx input Priority.low, ?_, rfl, Or.inl rfl,
      ⟨fun h => by simp [rule_parse_result] at h, fun h => absurd h (by omega)⟩,
      ⟨fun _ => hlt, fun _ => rfl⟩,
      ⟨fun h => by simp [rule_parse_result] at h, fun h => absurd h (by omega)⟩⟩
    simp only [rule_based_parse, determine_priority_low input hlt]
    exact validate_ok _ _ _ _ _ _ h1 h2 h3 rfl hdur
  · refine ⟨rule_parse_result now rx input Priority.medium, ?_, rfl,
      Or.inr (Or.inl rfl),
      ⟨fun h => by simp [rule_parse_result] at h, fun h => absurd h (by omega)⟩,
      ⟨fun h => by simp [rule_parse_result] at h, fun h => absurd h (by omega)⟩,
      ⟨fun _ => heq, fun _ => rfl⟩⟩
    simp only [rule_based_parse, determine_priority_medium input heq]
    exact validate_ok _ _ _ _ _ _ h1 h2 h3 rfl hdur
  · refine ⟨rule_parse_result now rx input Priority.high, ?_, rfl,
      Or.inr (Or.inr rfl),
      ⟨fun _ => hgt, fun _ => rfl⟩,
      ⟨fun h => by simp [rule_parse_result] at h, fun h => absurd h (by omega)⟩,
      ⟨fun h => by simp [rule_parse_result] at h, fun h => absurd h (by omega)⟩⟩
    simp only [rule_based_parse, determine_priority_high input hgt]
    exact validate_ok _ _ _ _ _ _ h1 h2 h3 rfl hdur

/-- C7 witness: the amended theorem applied to the input "Call John" with
the regex-match results the Python patterns produce on it. -/
theorem C7_rule_based_parse_total_witness : RuleParseSpec 0 cjRx "Call John" :=
  C7_rule_based_parse_total 0 cjRx "Call John" (by decide) (by decide) (by decide)

theorem task_create_minimal (ora : PyOracle) (s : String) :
    task_create_of_pyval ora (minimal_gemini_structure s) =
      Except.ok { title := "Parsed Task", description := some (pyTake s 200) } := by
  have hd : desc_too_long (some (pyTake s 200)) = false := by
    simp only [desc_too_long, decide_eq_false_iff_not, not_lt, pyTake,
      String.length, List.length_take]
    omega
  calc task_create_of_pyval ora (minimal_gemini_structure s)
      = if desc_too_long (some (pyTake s 200)) then
          Except.error ValidationError.descriptionLength
        else Except.ok { title := "Parsed Task", description := some (pyTake s 200) } := rfl
    _ = _ := by rw [hd]; simp

/-- C3 counterexample: with the model returning the non-JSON text
"not json", decoding fails, yet `parse_natural_language_task` returns the
minimal "Parsed Task" structure produced by `_parse_gemini_response` — not
the rule-based parse of the original input "Call John". -/
theorem C3_decode_failure_counterexample :
    cexPyOracle.json_loads (strip_code_fence "not json") = Option.none ∧
    parse_natural_language_task cexPyOracle 0 cjRx (Except.ok "not json") "Call John" =
      Except.ok { title := "Parsed Task", description := some "not json" } ∧
    parse_natural_language_task cexPyOracle 0 cjRx (Except.ok "not json") "Call John" ≠
      rule_based_parse 0 cjRx "Call John" := by
  refine ⟨rfl, by decide, by decide⟩

/-- C3 (amended): an API error from the model call, or any pydantic failure
of the `TaskCreate(**parsed)` construction, makes
`parse_natural_language_task` return exactly the rule-based parse of the
original input; but a JSON-decode failure of the response text never reaches
that fallback — it yields the minimal default structure (title "Parsed
Task", description the first 200 characters of the response). -/
theorem C3_parser_fallback (ora : PyOracle) (now : ℤ) (rx : RegexOracle)
    (input response_text : String) (e : ApiError) :
    parse_natural_language_task ora now rx (Except.error e) input =
      rule_based_parse now rx input ∧
    (∀ v, task_create_of_pyval ora (parse_gemini_response ora response_text) =
        Except.error v →
      parse_natural_language_task ora now rx (Except.ok response_text) input =
        rule_based_parse now rx input) ∧
    (ora.json_loads (strip_code_fence response_text) = Option.none →
      parse_natural_language_task ora now rx (Except.ok response_text) input =
        Except.ok { title := "Parsed Task", description := some (pyTake response_text 200) }) := by
  refine ⟨rfl, ?_, ?_⟩
  · intro v hv
    simp only [parse_natural_language_task, hv]
  · intro h
    simp only [parse_natural_language_task, parse_gemini_response, h,
      task_create_minimal]

/-- C3 witness: the amended theorem applied to the concrete oracle and
response "not json". -/
theorem C3_parser_fallback_witness :
    parse_natural_language_task cexPyOracle 0 cjRx (Except.ok "not json") "x" =
      Except.ok { title := "Parsed Task", description := some (pyTake "not json" 200) } :=
  (C3_parser_fallback cexPyOracle 0 cjRx "x" "not json"
    (ApiError.apiFailure "quota")).2.2 rfl

theorem runAux_spec (agent : DatabaseAgent)
    (hgen : ∀ msgs, ∃ r, agent.gen msgs = Except.ok r) :
    ∀ fuel msgs,
      (runAux agent msgs fuel).2 ≤ fuel ∧
      ((runAux agent msgs fuel).1 = stepLimitMessage ∨
       (∃ ms res, agent.gen ms = Except.ok res ∧
          res.block = ActionBlock.noBlock ∧
          (runAux agent msgs fuel).1 = res.text) ∨
       (∃ ms res kvs, agent.gen ms = Except.ok res ∧
          res.block = ActionBlock.action (some "final_answer") (ToolArgs.adict kvs) ∧
          (runAux agent msgs fuel).1 = (kvs.lookup "message").getD res.text)) := by
  intro fuel
  induction fuel with
  | zero => exact fun msgs => ⟨Nat.le_refl 0, Or.inl rfl⟩
  | succ n ih =>
    intro msgs
    obtain ⟨r, hr⟩ := hgen msgs
    rcases hb : r.block with _ | err | ⟨tool, args⟩
    · constructor
      · simp only [runAux, hr, hb]
        omega
      · refine Or.inr (Or.inl ⟨msgs, r, hr, hb, ?_⟩)
        simp only [runAux, hr, hb]
    · have ihn := ih (msgs ++
        [⟨Role.model, r.text⟩,
         ⟨Role.user, "Observation: Error executing tool: " ++ err⟩])
      constructor
      · simp only [runAux, hr, hb]
        omega
      · simp only [runAux, hr, hb]
        exact ihn.2
    · by_cases htool : tool = some "final_answer"
      · rcases args with kvs | err
        · constructor
          · simp only [runAux, hr, hb, htool, if_true]
            omega
          · refine Or.inr (Or.inr ⟨msgs, r, kvs, hr, by rw [hb, htool], ?_⟩)
            simp only [runAux, hr, hb, htool, if_true]
        · have ihn := ih (msgs ++
            [⟨Role.model, r.text⟩,
             ⟨Role.user, "Observation: Error executing tool: " ++ err⟩])
          constructor
          · simp only [runAux, hr, hb, htool, if_true]
            omega
          · simp only [runAux, hr, hb, htool, if_true]
            exact ihn.2
      · have ihn := ih (msgs ++
          [⟨Role.model, r.text⟩,
           ⟨Role.user, "Observation: " ++ agent.execTool tool args⟩])
        constructor
        · simp only [runAux, hr, hb, htool, if_false]
          omega
        · simp only [runAux, hr, hb, htool, if_false]
          exact ihn.2

/-- C1: when every model call succeeds, the ReAct loop of
`DatabaseAgent.run` makes at most 5 model calls for any input and history,
and its reply is the "message" argument of a `final_answer` action block
(defaulting to the raw text), or the raw model text of a response carrying
no recognized action block, or the fixed step-limit message — it never loops
unboundedly. -/
theorem C1_agent_loop_bounded (agent : DatabaseAgent) (user_input : String)
    (history : List HistoryMessage)
    (hgen : ∀ msgs, ∃ r, agent.gen msgs = Except.ok r) :
    (runAux agent (initMessages agent user_input history) maxTurns).2 ≤ maxTurns ∧
    (DatabaseAgent.run agent user_input history = stepLimitMessage ∨
     (∃ ms res, agent.gen ms = Except.ok res ∧
        res.block = ActionBlock.noBlock ∧
        DatabaseAgent.run agent user_input history = res.text) ∨
     (∃ ms res kvs, agent.gen ms = Except.ok res ∧
        res.block = ActionBlock.action (some "final_answer") (ToolArgs.adict kvs) ∧
        DatabaseAgent.run agent user_input history =
          (kvs.lookup "message").getD res.text)) :=
  runAux_spec agent hgen maxTurns (initMessages agent user_input history)

/-- C1 witness: the loop theorem applied to the trivial always-replying
agent. -/
theorem C1_agent_loop_bounded_witness :
    (runAux helloAgent (initMessages helloAgent "hi" []) maxTurns).2 ≤ maxTurns :=
  (C1_agent_loop_bounded helloAgent "hi" []
    (fun _ => ⟨⟨"hello", ActionBlock.noBlock⟩, rfl⟩)).1

end App
